import Mathlib

/-!
Verification of the ez-ledger billing-cycle / interest / fee / dual-ledger
engine, as a shallow embedding of the Go sources in Lean 4.

Embedding conventions:
* `decimal.Decimal` (shopspring) values are embedded as exact rationals `ℚ`.
  All additions, subtractions and multiplications of the library are exact, so
  they map to rational arithmetic.  `Decimal.Div` carries 16 fractional digits
  of precision; it is embedded as exact division, which agrees with the source
  far below the 2-decimal granularity of every property proved here.
  `Decimal.Round` rounds half away from zero and is embedded as `decRound`.
* `time.Time` values are embedded as integer day numbers: the sources only
  compare dates and take whole-day differences (`t2.Sub(t1).Hours()/24`).
* `uuid.UUID` identifiers are embedded as natural numbers; `uuid.Nil` is `0`
  and fresh-id generation is a counter carried in the ledger state.
* The transactional store is embedded as an explicit state
  (`LedgerState`): inserts append to a list after the database CHECK
  constraints of the migrations, and a failing step of a transactional unit
  returns an error without a new state (the deferred rollback of the source).
-/

namespace EzLedger

/-- Embedded `decimal.Decimal`: exact rational values. -/
abbrev Dec := ℚ

/-- Round a rational to the nearest integer, half away from zero
(the rounding mode of shopspring `Decimal.Round`). -/
def roundHalfAway (q : ℚ) : ℤ :=
  if 0 ≤ q then ⌊q + 1/2⌋ else -⌊(-q) + 1/2⌋

/-- Embeds `d.Round(places)` of shopspring decimals: round half away from zero at
`places` fractional decimal digits. -/
def decRound (places : ℕ) (q : ℚ) : ℚ :=
  (roundHalfAway (q * 10 ^ places) : ℚ) / 10 ^ places

/-! ## models/billing_cycle.go -/

/-- The `BillingCycleStatus` of `models/billing_cycle.go`. -/
inductive BillingCycleStatus where
  | open_
  | closed
  | paid
  | paidFull
  | pastDue
  | delinquent
deriving DecidableEq, Repr

/-- The `BillingCycle` of `models/billing_cycle.go`, restricted to the fields read
by the embedded operations.  Dates are integer day numbers. -/
structure BillingCycle where
  id : ℕ
  creditCardID : ℕ
  tenantID : ℕ
  cycleNumber : ℤ
  cycleStartDate : ℤ
  cycleEndDate : ℤ
  dueDate : ℤ
  previousBalance : Dec
  paymentsReceived : Dec
  purchasesAmount : Dec
  cashAdvancesAmount : Dec
  refundsAmount : Dec
  feesAmount : Dec
  interestAmount : Dec
  adjustmentsAmount : Dec
  cashbackEarned : Dec
  cashbackRedeemed : Dec
  newBalance : Dec
  minimumPayment : Dec
  paymentsMade : Dec
  minimumPaymentMet : Bool
  status : BillingCycleStatus
deriving DecidableEq, Repr

/-- The `BillingCycle.CalculateNewBalance`: the chained
`Sub`/`Add` calls of `models/billing_cycle.go` lines 78-92. -/
def BillingCycle.calculateNewBalance (bc : BillingCycle) : Dec :=
  bc.previousBalance
    - bc.paymentsReceived
    + bc.purchasesAmount
    + bc.cashAdvancesAmount
    - bc.refundsAmount
    + bc.feesAmount
    + bc.interestAmount
    + bc.adjustmentsAmount
    - bc.cashbackRedeemed

/-- The `BillingCycle.IsOverdue`: `currentDate.After(bc.DueDate) && !bc.MinimumPaymentMet`. -/
def BillingCycle.isOverdue (bc : BillingCycle) (currentDate : ℤ) : Bool :=
  decide (bc.dueDate < currentDate) && !bc.minimumPaymentMet

/-- The `DailyBalanceRecord` of `models/billing_cycle.go`. -/
structure DailyBalanceRecord where
  date : ℤ
  balance : Dec
deriving DecidableEq, Repr

/-- The `CalculateAverageDailyBalance` of `models/billing_cycle.go` lines 135-147:
zero for an empty record list, otherwise the sum of balances divided by the
number of records, rounded (`.Div(days).Round(2)`) to 2 decimal places. -/
def calculateAverageDailyBalance (records : List DailyBalanceRecord) : Dec :=
  match records with
  | [] => 0
  | _ =>
    let totalBalance := records.foldl (fun acc r => acc + r.balance) 0
    decRound 2 (totalBalance / records.length)

/-! ## models/credit_card.go -/

/-- The `CreditCardStatus` of `models/credit_card.go`. -/
inductive CreditCardStatus where
  | active
  | frozen
  | closed
  | delinquent
deriving DecidableEq, Repr

/-- The `CreditCard` of `models/credit_card.go`, restricted to the fields read by
the embedded operations. -/
structure CreditCard where
  id : ℕ
  tenantID : ℕ
  status : CreditCardStatus
  purchaseAPR : Dec
  cashAdvanceAPR : Dec
  penaltyAPR : Dec
  introductoryAPR : Dec
  introductoryEndDate : Option ℤ
  latePaymentFee : Dec
  minimumPaymentPercent : Dec
  minimumPaymentAmount : Dec
deriving DecidableEq, Repr

/-- The `CreditCard.GetEffectiveAPR`: penalty APR when delinquent, the
introductory APR while `now` is before its end date, else the purchase APR. -/
def CreditCard.getEffectiveAPR (c : CreditCard) (now : ℤ) : Dec :=
  if c.status = .delinquent then c.penaltyAPR
  else
    match c.introductoryEndDate with
    | some endDate => if now < endDate then c.introductoryAPR else c.purchaseAPR
    | none => c.purchaseAPR

/-- The `CreditCard.GetDailyPeriodicRate`: `apr.Div(365).Div(100)`. -/
def CreditCard.getDailyPeriodicRate (_c : CreditCard) (apr : Dec) : Dec :=
  apr / 365 / 100

/-- The `CreditCard.CalculateMinimumPayment` of `models/credit_card.go`
lines 163-179, translated branch for branch. -/
def CreditCard.calculateMinimumPayment (c : CreditCard) (statementBalance : Dec) : Dec :=
  if statementBalance ≤ 0 then 0
  else
    let percentMin := statementBalance * c.minimumPaymentPercent / 100
    if percentMin < c.minimumPaymentAmount then
      if statementBalance < c.minimumPaymentAmount then statementBalance
      else c.minimumPaymentAmount
    else percentMin

/-! ## models/payment.go -/

/-- The `PaymentStatus` of `models/payment.go`. -/
inductive PaymentStatus where
  | pending
  | processing
  | cleared
  | failed
  | returned
  | cancelled
  | reversed
deriving DecidableEq, Repr, Fintype

/-- The `validTransitions` map of `Payment.CanTransitionTo`
(`models/payment.go` lines 130-150); every status is a key. -/
def validTransitions : PaymentStatus → List PaymentStatus
  | .pending => [.processing, .cancelled]
  | .processing => [.cleared, .failed, .cancelled]
  | .cleared => [.returned, .reversed]
  | .failed => [.pending]
  | .returned => []
  | .cancelled => []
  | .reversed => []

/-- The `Payment.CanTransitionTo`: membership in the `validTransitions` map
(the missing-key branch of the source is unreachable: the map has
every status as a key). -/
def canTransitionTo (s newStatus : PaymentStatus) : Bool :=
  (validTransitions s).contains newStatus

/-- The `Payment` of `models/payment.go`, restricted to the fields read by the
embedded operations. -/
structure Payment where
  status : PaymentStatus
  attemptCount : ℤ
  maxRetries : ℤ
deriving DecidableEq, Repr

/-- The `Payment.CanRetry`: failed status and attempts below the retry limit. -/
def Payment.canRetry (p : Payment) : Bool :=
  decide (p.status = .failed) && decide (p.attemptCount < p.maxRetries)

/-- Error outcomes of `PaymentService.RetryPayment`. -/
inductive RetryError where
  | cannotRetry
  | invalidTransition
deriving DecidableEq, Repr

/-- The `PaymentService.RetryPayment` (`services/payment_service.go`): rejects
unless `CanRetry` and `CanTransitionTo(pending)` hold, then moves the payment
back to `pending`. -/
def retryPayment (p : Payment) : Except RetryError Payment :=
  if !p.canRetry then .error .cannotRetry
  else if !canTransitionTo p.status .pending then .error .invalidTransition
  else .ok { p with status := .pending }

/-! ## Ledger entries and the transactional store

`StatementEntryType` and `EntryStatus` come from the statement-ledger model
file; `PointsEntryType` from `models/points_ledger.go`.  The store itself is
the relational schema of the migrations: inserts are subject to the CHECK
constraints `no_negative_fees` (statement ledger) and
`earned_points_positive` / `redeemed_points_impact` (points ledger). -/

/-- The `StatementEntryType`: the seventeen entry-type constants of the
statement-ledger model. -/
inductive StatementEntryType where
  | transaction
  | payment
  | refund
  | reward
  | returnedReward
  | feeLate
  | feeFailed
  | feeInternational
  | feeInterest
  | feeOverLimit
  | feeAnnual
  | feeCashAdvance
  | cashAdvance
  | cashbackEarned
  | cashbackRedeemed
  | adjustment
  | credit
deriving DecidableEq, Repr

/-- Whether the string value of the entry type starts with the fee marker
(`entry_type LIKE 'fee_%'` in the migrations). -/
def StatementEntryType.isFeeType : StatementEntryType → Bool
  | .feeLate | .feeFailed | .feeInternational | .feeInterest
  | .feeOverLimit | .feeAnnual | .feeCashAdvance => true
  | _ => false

/-- The `EntryStatus` of the statement-ledger model. -/
inductive EntryStatus where
  | pending
  | cleared
  | reversed
deriving DecidableEq, Repr

/-- The `StatementLedgerEntry`, restricted to the fields the embedded operations
read.  `metadataPointsEntryID` embeds the `points_entry_id` metadata key the
redemption flow writes. -/
structure StatementLedgerEntry where
  id : ℕ
  tenantID : ℕ
  statementID : Option ℕ
  entryType : StatementEntryType
  amount : Dec
  status : EntryStatus
  metadataPointsEntryID : Option ℕ
deriving DecidableEq, Repr

/-- The `PointsEntryType` of `models/points_ledger.go`. -/
inductive PointsEntryType where
  | earnedTransaction
  | earnedRefund
  | redeemedSpent
  | redeemedCancelled
  | redeemedRefunded
  | adjustment
deriving DecidableEq, Repr

/-- Tests whether the entry type matches the `earned_` prefix pattern of the points-ledger migration. -/
def PointsEntryType.isEarnedType : PointsEntryType → Bool
  | .earnedTransaction | .earnedRefund => true
  | _ => false

/-- Tests whether the entry type matches the `redeemed_` prefix pattern of the points-ledger migration. -/
def PointsEntryType.isRedeemedType : PointsEntryType → Bool
  | .redeemedSpent | .redeemedCancelled | .redeemedRefunded => true
  | _ => false

/-- The `PointsLedgerEntry` of `models/points_ledger.go`, restricted to the
fields the embedded operations read. -/
structure PointsLedgerEntry where
  id : ℕ
  tenantID : ℕ
  statementEntryID : Option ℕ
  entryType : PointsEntryType
  points : ℤ
deriving DecidableEq, Repr

/-- The transactional store: both append-only entry streams plus a fresh-id
counter (the embedding of `uuid.New()`). -/
structure LedgerState where
  statementEntries : List StatementLedgerEntry
  pointsEntries : List PointsLedgerEntry
  nextID : ℕ
deriving DecidableEq, Repr

/-- A failed insert: the row violated a CHECK constraint of the migrations. -/
inductive DBError where
  | checkViolation
deriving DecidableEq, Repr

/-- The `no_negative_fees` CHECK constraint on `statement_ledger_entries`
(`entry_type NOT LIKE 'fee_%' OR amount >= 0`). -/
def statementEntryOK (e : StatementLedgerEntry) : Bool :=
  !e.entryType.isFeeType || decide (0 ≤ e.amount)

/-- The `earned_points_positive` and `redeemed_points_impact` CHECK
constraints on `points_ledger_entries`. -/
def pointsEntryOK (e : PointsLedgerEntry) : Bool :=
  (!e.entryType.isEarnedType || decide (0 < e.points))
    && (!e.entryType.isRedeemedType || decide (e.points ≠ 0))

/-- The `StatementLedgerService.CreateEntry`: assigns a fresh id when the entry
carries the nil id, then inserts the row.  The service performs no validation
of its own; the insert fails only on the CHECK constraints of the schema.
Returns the stored entry (the source mutates the caller's entry in place). -/
def createStatementEntry (st : LedgerState) (e : StatementLedgerEntry) :
    Except DBError (LedgerState × StatementLedgerEntry) :=
  let stored := if e.id = 0 then { e with id := st.nextID } else e
  if statementEntryOK stored then
    .ok ({ st with statementEntries := st.statementEntries ++ [stored],
                   nextID := st.nextID + 1 }, stored)
  else .error .checkViolation

/-- The `PointsLedgerService.CreateEntry`: assigns a fresh id when the entry
carries the nil id, then inserts the row.  The service performs no validation
of its own; the insert fails only on the CHECK constraints of the schema. -/
def createPointsEntry (st : LedgerState) (e : PointsLedgerEntry) :
    Except DBError (LedgerState × PointsLedgerEntry) :=
  let stored := if e.id = 0 then { e with id := st.nextID } else e
  if pointsEntryOK stored then
    .ok ({ st with pointsEntries := st.pointsEntries ++ [stored],
                   nextID := st.nextID + 1 }, stored)
  else .error .checkViolation

/-- The `available_points` of the `points_balances` view: `SUM(points)` over the
tenant's rows, `0` when the tenant has none (`GetBalance` on `ErrNoRows`). -/
def availablePoints (st : LedgerState) (tenantID : ℕ) : ℤ :=
  (st.pointsEntries.filter (fun e => e.tenantID = tenantID)).foldl
    (fun acc e => acc + e.points) 0

/-! ## services/cashback_service.go (points ledger service) and
## the reconciliation service -/

/-- Business-rule and storage errors of the redemption flow. -/
inductive RecError where
  | insufficientPoints
  | db (e : DBError)
deriving DecidableEq, Repr

/-- The `PointsLedgerService.ValidateRedemption`: rejects when the tenant's
available points are below the requested amount. -/
def validateRedemption (st : LedgerState) (tenantID : ℕ) (pointsToRedeem : ℤ) :
    Except RecError Unit :=
  if availablePoints st tenantID < pointsToRedeem then .error .insufficientPoints
  else .ok ()

/-- The `RewardRedemptionRequest` of the reconciliation service, restricted to the
fields the embedded operation reads. -/
structure RewardRedemptionRequest where
  tenantID : ℕ
  pointsToRedeem : ℤ
  creditAmount : Dec
deriving DecidableEq, Repr

/-- The `LedgerReconciliationService.RecordRewardRedemption`: inside one
transaction, validate the points balance, insert the negative
`redeemed_spent` points entry, insert the `reward` statement credit whose
metadata names the points entry, and finally set the in-memory back-link on
the points entry.  Any error aborts with no new state (the deferred
rollback). -/
def recordRewardRedemption (st : LedgerState) (req : RewardRedemptionRequest) :
    Except RecError (LedgerState × StatementLedgerEntry × PointsLedgerEntry) := do
  let _ ← validateRedemption st req.tenantID req.pointsToRedeem
  let pe0 : PointsLedgerEntry :=
    { id := 0, tenantID := req.tenantID, statementEntryID := none,
      entryType := .redeemedSpent, points := -req.pointsToRedeem }
  match createPointsEntry st pe0 with
  | .error e => .error (.db e)
  | .ok (st1, pe) =>
    let se0 : StatementLedgerEntry :=
      { id := 0, tenantID := req.tenantID, statementID := none,
        entryType := .reward, amount := req.creditAmount,
        status := .pending, metadataPointsEntryID := some pe.id }
    match createStatementEntry st1 se0 with
    | .error e => .error (.db e)
    | .ok (st2, se) => .ok (st2, se, { pe with statementEntryID := some se.id })

/-! ## The fee service -/

/-- The `FeeService.hasExistingFee`: a row for the tenant and cycle of the given
entry type whose status is not `reversed`. -/
def hasExistingFee (st : LedgerState) (tenantID cycleID : ℕ)
    (feeType : StatementEntryType) : Bool :=
  st.statementEntries.any fun e =>
    decide (e.tenantID = tenantID) && decide (e.statementID = some cycleID)
      && decide (e.entryType = feeType) && decide (e.status ≠ .reversed)

/-- The `LatePaymentFeeRequest` of the fee service. -/
structure LatePaymentFeeRequest where
  card : CreditCard
  cycle : BillingCycle
  currentDate : ℤ
  daysOverdue : ℤ
deriving DecidableEq, Repr

/-- The result object of a fee assessment, restricted to the fields the
claims mention. -/
structure FeeAssessmentResult where
  feeAmount : Dec
  entryID : ℕ
deriving DecidableEq, Repr

/-- The `FeeService.AssessLatePaymentFee`: not overdue, minimum met, or an
existing non-reversed `fee_late` entry for the cycle each yield the no-op
result (no entry, no result, no error); otherwise a pending `fee_late` entry
for the card's late-payment fee is inserted. -/
def assessLatePaymentFee (st : LedgerState) (req : LatePaymentFeeRequest) :
    Except DBError (LedgerState × Option FeeAssessmentResult) :=
  if !req.cycle.isOverdue req.currentDate then .ok (st, none)
  else if req.cycle.minimumPaymentMet then .ok (st, none)
  else if hasExistingFee st req.card.tenantID req.cycle.id .feeLate then .ok (st, none)
  else
    let entry : StatementLedgerEntry :=
      { id := 0, tenantID := req.card.tenantID, statementID := some req.cycle.id,
        entryType := .feeLate, amount := req.card.latePaymentFee,
        status := .pending, metadataPointsEntryID := none }
    match createStatementEntry st entry with
    | .error e => .error e
    | .ok (st', stored) =>
      .ok (st', some { feeAmount := req.card.latePaymentFee, entryID := stored.id })

/-! ## The interest service -/

/-- The `InterestCalculationMethod` of the interest service. -/
inductive InterestCalculationMethod where
  | averageDailyBalance
  | dailyBalance
  | adjustedBalance
deriving DecidableEq, Repr

/-- The `InterestConfig` of the interest service, restricted to the fields the
calculation reads. -/
structure InterestConfig where
  method : InterestCalculationMethod
  minimumInterestCharge : Dec
  roundingPrecision : ℕ
deriving DecidableEq, Repr

/-- The `InterestCalculationResult`, restricted to the fields the calculation
sets. -/
structure InterestCalculationResult where
  calculationMethod : InterestCalculationMethod
  averageDailyBalance : Dec
  aprUsed : Dec
  dailyPeriodicRate : Dec
  daysInCycle : ℤ
  interestCharge : Dec
  minimumInterestCharge : Dec
  waivedDueToGracePeriod : Bool
deriving DecidableEq, Repr

/-- The `InterestService.calculateADBInterest`: zero for a non-positive ADB,
otherwise `ADB × DPR × days` rounded to 2 decimal places. -/
def calculateADBInterest (adb dpr : Dec) (daysInCycle : ℤ) : Dec :=
  if adb ≤ 0 then 0
  else decRound 2 (adb * dpr * (daysInCycle : ℚ))

/-- The `InterestService.calculateDailyBalanceInterest`: the sum over records of
`balance × DPR` for strictly positive balances, rounded to 2 decimals. -/
def calculateDailyBalanceInterest (balances : List DailyBalanceRecord) (dpr : Dec) : Dec :=
  decRound 2 (balances.foldl
    (fun acc r => if 0 < r.balance then acc + r.balance * dpr else acc) 0)

/-- The `InterestService.calculateAdjustedBalanceInterest`: zero when
`previousBalance - payments` is non-positive, otherwise that adjusted balance
times the monthly rate `apr/12/100`, rounded to 2 decimals. -/
def calculateAdjustedBalanceInterest (previousBalance payments apr : Dec) : Dec :=
  let adjustedBalance := previousBalance - payments
  if adjustedBalance ≤ 0 then 0
  else decRound 2 (adjustedBalance * (apr / 12 / 100))

/-- The row-selection predicate of `InterestService.qualifiesForGracePeriod`:
the card's cycle numbered one below the current one, with status
`paid_full`. -/
def priorPaidFullPred (card : CreditCard) (currentCycle : BillingCycle)
    (c : BillingCycle) : Bool :=
  decide (c.creditCardID = card.id)
    && decide (c.cycleNumber = currentCycle.cycleNumber - 1)
    && decide (c.status = .paidFull)

/-- The `InterestService.qualifiesForGracePeriod`: the query selects the prior
`paid_full` cycle of the card; no row grants the grace period (new account),
a row grants it when its payments reached its new balance.  `cycles` embeds
the `billing_cycles` table. -/
def qualifiesForGracePeriod (cycles : List BillingCycle) (card : CreditCard)
    (currentCycle : BillingCycle) : Bool :=
  match cycles.find? (priorPaidFullPred card currentCycle) with
  | none => true
  | some prev => decide (prev.newBalance ≤ prev.paymentsMade)

/-- The `InterestService.CalculateInterest`: effective APR, DPR and cycle length
are computed, the daily balances (here passed in as the result of the
read-only `getDailyBalances` scan) are averaged, the grace period is checked
before any method dispatch, and otherwise the method's charge is floored at
the configured minimum (only when strictly positive) and rounded at the
configured precision. -/
def calculateInterest (cycles : List BillingCycle)
    (dailyBalances : List DailyBalanceRecord) (card : CreditCard)
    (cycle : BillingCycle) (config : InterestConfig) : InterestCalculationResult :=
  let apr := card.getEffectiveAPR cycle.cycleStartDate
  let dpr := card.getDailyPeriodicRate apr
  let daysInCycle := cycle.cycleEndDate - cycle.cycleStartDate + 1
  let adb := calculateAverageDailyBalance dailyBalances
  if qualifiesForGracePeriod cycles card cycle then
    { calculationMethod := config.method, averageDailyBalance := adb,
      aprUsed := apr, dailyPeriodicRate := dpr, daysInCycle := daysInCycle,
      interestCharge := 0, minimumInterestCharge := 0,
      waivedDueToGracePeriod := true }
  else
    let charge :=
      match config.method with
      | .averageDailyBalance => calculateADBInterest adb dpr daysInCycle
      | .dailyBalance => calculateDailyBalanceInterest dailyBalances dpr
      | .adjustedBalance =>
        calculateAdjustedBalanceInterest cycle.previousBalance cycle.paymentsReceived apr
    let charge :=
      if 0 < charge ∧ charge < config.minimumInterestCharge then
        config.minimumInterestCharge
      else charge
    { calculationMethod := config.method, averageDailyBalance := adb,
      aprUsed := apr, dailyPeriodicRate := dpr, daysInCycle := daysInCycle,
      interestCharge := decRound config.roundingPrecision charge,
      minimumInterestCharge := config.minimumInterestCharge,
      waivedDueToGracePeriod := false }

/-! ## Example values used by witnesses and counterexamples -/

/-- A billing cycle with every numeric field zero, used as a base for
concrete cycles. -/
def zeroCycle : BillingCycle :=
  { id := 0, creditCardID := 0, tenantID := 0, cycleNumber := 0,
    cycleStartDate := 0, cycleEndDate := 0, dueDate := 0,
    previousBalance := 0, paymentsReceived := 0, purchasesAmount := 0,
    cashAdvancesAmount := 0, refundsAmount := 0, feesAmount := 0,
    interestAmount := 0, adjustmentsAmount := 0, cashbackEarned := 0,
    cashbackRedeemed := 0, newBalance := 0, minimumPayment := 0,
    paymentsMade := 0, minimumPaymentMet := false, status := .open_ }

/-- A concrete card: 18.25% purchase APR, 3% / $25 minimum-payment rule,
$35 late fee. -/
def cardW : CreditCard :=
  { id := 1, tenantID := 1, status := .active, purchaseAPR := 73/4,
    cashAdvanceAPR := 0, penaltyAPR := 0, introductoryAPR := 0,
    introductoryEndDate := none, latePaymentFee := 35,
    minimumPaymentPercent := 3, minimumPaymentAmount := 25 }

/-- A concrete current cycle of `cardW` that is past its due date with the
minimum unpaid. -/
def cycleW : BillingCycle :=
  { zeroCycle with id := 10, creditCardID := 1, tenantID := 1,
                   cycleNumber := 2, cycleStartDate := 0, cycleEndDate := 29,
                   dueDate := 54 }

/-- The default interest configuration: ADB method, $0.50 minimum,
2-decimal rounding. -/
def configW : InterestConfig :=
  { method := .averageDailyBalance, minimumInterestCharge := 1/2,
    roundingPrecision := 2 }

/-- A cycle whose only activity is a 100-payment against a zero balance:
its new balance is a credit balance of -100. -/
def overpaidCycle : BillingCycle :=
  { zeroCycle with paymentsReceived := 100 }

/-! ## C4 — the new-balance formula -/

/-- C4: `CalculateNewBalance` returns exactly
`previousBalance − paymentsReceived + purchases + cashAdvances − refunds +
fees + interest + adjustments − cashbackRedeemed`, and a negative result
(customer credit balance) is returned as-is — on `overpaidCycle` the result
is the unclamped -100. -/
theorem C4_new_balance_formula :
    (∀ bc : BillingCycle,
       bc.calculateNewBalance =
         bc.previousBalance - bc.paymentsReceived + bc.purchasesAmount
           + bc.cashAdvancesAmount - bc.refundsAmount + bc.feesAmount
           + bc.interestAmount + bc.adjustmentsAmount - bc.cashbackRedeemed) ∧
    overpaidCycle.calculateNewBalance = -100 ∧
    overpaidCycle.calculateNewBalance < 0 := by
  refine ⟨fun bc => rfl, ?_, ?_⟩ <;>
    norm_num [overpaidCycle, zeroCycle, BillingCycle.calculateNewBalance]

/-! ## C10 — empty daily-balance list -/

/-- C10: for an empty list of daily balance records
`CalculateAverageDailyBalance` returns zero (no division by zero), and the
ADB-method interest on that value is zero for every rate and cycle length. -/
theorem C10_empty_records_safe :
    calculateAverageDailyBalance [] = 0 ∧
    ∀ (dpr : Dec) (days : ℤ),
      calculateADBInterest (calculateAverageDailyBalance []) dpr days = 0 := by
  refine ⟨rfl, fun dpr days => ?_⟩
  simp [calculateAverageDailyBalance, calculateADBInterest]

/-! ## C2 — ADB-method interest -/

/-- C2: the ADB-method charge is `ADB × DPR × daysInCycle` (rounded at
2 decimals), zero for non-positive ADB, with `DPR = APR/365/100`; at
ADB = $1100, APR = 18.25% and 30 days the charge is $16.50. -/
theorem C2_adb_interest :
    (∀ (adb dpr : Dec) (days : ℤ),
       calculateADBInterest adb dpr days =
         if adb ≤ 0 then 0 else decRound 2 (adb * dpr * (days : ℚ))) ∧
    (∀ (c : CreditCard) (apr : Dec), c.getDailyPeriodicRate apr = apr / 365 / 100) ∧
    (∀ c : CreditCard, c.getDailyPeriodicRate (73/4) = 1/2000) ∧
    (∀ c : CreditCard,
       calculateADBInterest 1100 (c.getDailyPeriodicRate (73/4)) 30 = 33/2) := by
  refine ⟨fun adb dpr days => rfl, fun c apr => rfl, fun c => by norm_num
    [CreditCard.getDailyPeriodicRate], fun c => ?_⟩
  norm_num [CreditCard.getDailyPeriodicRate, calculateADBInterest, decRound,
    roundHalfAway]

/-! ## C5 — the payment state machine -/

/-- C5: `CanTransitionTo` admits exactly
pending→{processing, cancelled}, processing→{cleared, failed, cancelled},
cleared→{returned, reversed} and failed→pending; `RetryPayment` succeeds
exactly on a failed payment with `attemptCount < maxRetries`; and
cleared→pending is refused. -/
theorem C5_payment_state_machine :
    (∀ s t : PaymentStatus,
       canTransitionTo s t = true ↔
         (s = .pending ∧ (t = .processing ∨ t = .cancelled)) ∨
         (s = .processing ∧ (t = .cleared ∨ t = .failed ∨ t = .cancelled)) ∨
         (s = .cleared ∧ (t = .returned ∨ t = .reversed)) ∨
         (s = .failed ∧ t = .pending)) ∧
    (∀ p : Payment,
       (∃ q, retryPayment p = .ok q) ↔
         p.status = .failed ∧ p.attemptCount < p.maxRetries) ∧
    canTransitionTo .cleared .pending = false := by
  refine ⟨by decide, fun p => ?_, by decide⟩
  rcases p with ⟨s, a, m⟩
  cases s
  case failed =>
    by_cases h : a < m <;>
      simp [retryPayment, Payment.canRetry, canTransitionTo, validTransitions, h]
  all_goals simp [retryPayment, Payment.canRetry]

/-! ## C1 — grace-period waiver -/

/-- C1: when every prior `paid_full` cycle of the card in the store has
payments covering its new balance — which holds both when the prior cycle
closed `paid_full` with payments ≥ new balance and when there is no prior
cycle at all — `CalculateInterest` returns a zero interest charge and sets
`waivedDueToGracePeriod`, for every calculation method, configuration and
daily-balance history. -/
theorem C1_grace_period_waives_interest (cycles : List BillingCycle)
    (dailyBalances : List DailyBalanceRecord) (card : CreditCard)
    (cycle : BillingCycle) (config : InterestConfig)
    (h : ∀ prev ∈ cycles, prev.creditCardID = card.id →
           prev.cycleNumber = cycle.cycleNumber - 1 → prev.status = .paidFull →
           prev.newBalance ≤ prev.paymentsMade) :
    (calculateInterest cycles dailyBalances card cycle config).interestCharge = 0 ∧
    (calculateInterest cycles dailyBalances card cycle config).waivedDueToGracePeriod
      = true := by
  have hq : qualifiesForGracePeriod cycles card cycle = true := by
    unfold qualifiesForGracePeriod
    cases hfind : cycles.find? (priorPaidFullPred card cycle) with
    | none => rfl
    | some prev =>
      have hmem := List.mem_of_find?_eq_some hfind
      have hpred := List.find?_some hfind
      simp only [priorPaidFullPred, Bool.and_eq_true, decide_eq_true_eq] at hpred
      exact decide_eq_true (h prev hmem hpred.1.1 hpred.1.2 hpred.2)
  simp [calculateInterest, hq]

/-- Witness for C1: a brand-new account (empty cycle store) has its interest
waived. -/
theorem C1_grace_period_waives_interest_witness :
    (calculateInterest [] [] cardW cycleW configW).interestCharge = 0 ∧
    (calculateInterest [] [] cardW cycleW configW).waivedDueToGracePeriod = true :=
  C1_grace_period_waives_interest [] [] cardW cycleW configW (by simp)

/-! ## C3 — minimum payment -/

/-- Modelled from the spec sentence for comparison with the source:
`max(newBalance × minimumPaymentPercent, minimumPaymentAmount)`, except zero
for a non-positive balance and the full balance when it is below the fixed
minimum. -/
def claimMinimumPayment (balance pct minAmt : Dec) : Dec :=
  if balance ≤ 0 then 0
  else if balance < minAmt then balance
  else max (balance * pct / 100) minAmt

/-- C3: for a card whose minimum-payment percent is at most 100 (the bound
`Validate` enforces), `CalculateMinimumPayment` agrees with the claimed
max-with-exceptions formula on every statement balance. -/
theorem C3_minimum_payment (c : CreditCard) (balance : Dec)
    (hpct : c.minimumPaymentPercent ≤ 100) :
    c.calculateMinimumPayment balance =
      claimMinimumPayment balance c.minimumPaymentPercent c.minimumPaymentAmount := by
  unfold CreditCard.calculateMinimumPayment claimMinimumPayment
  by_cases hb : balance ≤ 0
  · simp [hb]
  · simp only [hb, if_false]
    push_neg at hb
    have hpm : balance * c.minimumPaymentPercent / 100 ≤ balance := by
      have h1 : balance * c.minimumPaymentPercent ≤ balance * 100 :=
        mul_le_mul_of_nonneg_left hpct hb.le
      calc balance * c.minimumPaymentPercent / 100 ≤ balance * 100 / 100 :=
            div_le_div_of_nonneg_right h1 (by norm_num)
        _ = balance := by ring
    by_cases hlt : balance * c.minimumPaymentPercent / 100 < c.minimumPaymentAmount
    · simp only [hlt, if_true]
      by_cases hbm : balance < c.minimumPaymentAmount
      · simp [hbm]
      · simp only [hbm, if_false]
        exact (max_eq_right hlt.le).symm
    · simp only [hlt, if_false]
      push_neg at hlt
      have hnb : ¬ balance < c.minimumPaymentAmount := not_lt.mpr (hlt.trans hpm)
      simp only [hnb, if_false]
      exact (max_eq_left hlt).symm

/-- Witness for C3: balance $1000 with percent 3% and fixed amount $25 gives
a minimum payment of $30. -/
theorem C3_minimum_payment_witness :
    cardW.calculateMinimumPayment 1000 = 30 := by
  have h := C3_minimum_payment cardW 1000 (by norm_num [cardW])
  rw [h]
  norm_num [claimMinimumPayment, cardW]

/-! ## C7 — late-fee idempotence -/

/-- The non-reversed `fee_late` rows of a tenant's cycle (the rows the
dedupe query of `hasExistingFee` sees). -/
def countLateFees (st : LedgerState) (tenantID cycleID : ℕ) : ℕ :=
  (st.statementEntries.filter fun e =>
    decide (e.tenantID = tenantID) && decide (e.statementID = some cycleID)
      && decide (e.entryType = StatementEntryType.feeLate)
      && decide (e.status ≠ .reversed)).length

theorem countLateFees_eq_zero_of_no_existing (st : LedgerState)
    (tenantID cycleID : ℕ)
    (h : hasExistingFee st tenantID cycleID .feeLate = false) :
    countLateFees st tenantID cycleID = 0 := by
  unfold hasExistingFee at h
  rw [List.any_eq_false] at h
  unfold countLateFees
  rw [List.length_eq_zero, List.filter_eq_nil_iff]
  exact fun a ha => by simpa using h a ha

/-- C7: when a non-reversed `fee_late` entry already exists for the cycle,
`AssessLatePaymentFee` is a no-op (same state, no result, no error); and no
successful assessment ever takes a cycle beyond one such entry. -/
theorem C7_late_fee_idempotent :
    (∀ (st : LedgerState) (req : LatePaymentFeeRequest),
       hasExistingFee st req.card.tenantID req.cycle.id .feeLate = true →
       assessLatePaymentFee st req = .ok (st, none)) ∧
    (∀ (st : LedgerState) (req : LatePaymentFeeRequest)
       (st' : LedgerState) (r : Option FeeAssessmentResult),
       assessLatePaymentFee st req = .ok (st', r) →
       countLateFees st' req.card.tenantID req.cycle.id ≤
         max 1 (countLateFees st req.card.tenantID req.cycle.id)) := by
  constructor
  · intro st req h
    unfold assessLatePaymentFee
    split_ifs with h1 h2 <;> rfl
  · intro st req st' r heq
    unfold assessLatePaymentFee at heq
    split_ifs at heq with h1 h2 h3
    · cases heq
      exact le_max_right 1 _
    · cases heq
      exact le_max_right 1 _
    · cases heq
      exact le_max_right 1 _
    · have h3' : hasExistingFee st req.card.tenantID req.cycle.id .feeLate = false := by
        simpa using h3
      have hzero := countLateFees_eq_zero_of_no_existing st _ _ h3'
      by_cases hfee : (0 : ℚ) ≤ req.card.latePaymentFee
      · simp [createStatementEntry, statementEntryOK,
          StatementEntryType.isFeeType, hfee] at heq
        obtain ⟨hst, -⟩ := heq
        subst hst
        unfold countLateFees at hzero ⊢
        rw [List.filter_append, List.length_append, hzero]
        simp
      · simp [createStatementEntry, statementEntryOK,
          StatementEntryType.isFeeType, hfee] at heq

/-- An already-assessed late fee for `cycleW` of tenant 1. -/
def lateFeeEntryW : StatementLedgerEntry :=
  { id := 5, tenantID := 1, statementID := some 10, entryType := .feeLate,
    amount := 35, status := .pending, metadataPointsEntryID := none }

/-- A ledger state already holding `lateFeeEntryW`. -/
def stFeeW : LedgerState :=
  { statementEntries := [lateFeeEntryW], pointsEntries := [], nextID := 6 }

/-- A late-fee request for `cardW` and the overdue, unpaid `cycleW`. -/
def lateFeeReqW : LatePaymentFeeRequest :=
  { card := cardW, cycle := cycleW, currentDate := 60, daysOverdue := 6 }

/-- Witness for C7: with the fee of `cycleW` already on the ledger, a second
assessment returns the unchanged state, no result and no error. -/
theorem C7_late_fee_idempotent_witness :
    assessLatePaymentFee stFeeW lateFeeReqW = .ok (stFeeW, none) :=
  C7_late_fee_idempotent.1 stFeeW lateFeeReqW (by decide)

/-! ## C6 — reward redemption -/

/-- C6: a redemption requesting more points than the tenant's available
balance fails with the insufficient-points rejection and commits nothing
(the error outcome carries no state: the transaction rolls back); a
sufficient balance yields one negative points entry and one linked `reward`
statement credit appended in the same atomic state update. -/
theorem C6_redemption (st : LedgerState) (req : RewardRedemptionRequest) :
    (availablePoints st req.tenantID < req.pointsToRedeem →
       recordRewardRedemption st req = .error .insufficientPoints) ∧
    (req.pointsToRedeem ≤ availablePoints st req.tenantID →
     0 < req.pointsToRedeem →
       ∃ st' se pe, recordRewardRedemption st req = .ok (st', se, pe) ∧
         st'.statementEntries = st.statementEntries ++ [se] ∧
         (∃ pe0, st'.pointsEntries = st.pointsEntries ++ [pe0] ∧
            pe0.id = pe.id ∧ pe0.points = pe.points ∧
            pe0.entryType = pe.entryType) ∧
         pe.points = -req.pointsToRedeem ∧ pe.entryType = .redeemedSpent ∧
         se.entryType = .reward ∧ se.amount = req.creditAmount ∧
         se.status = .pending ∧
         se.metadataPointsEntryID = some pe.id ∧
         pe.statementEntryID = some se.id) := by
  constructor
  · intro h
    have hv : validateRedemption st req.tenantID req.pointsToRedeem =
        .error .insufficientPoints := by
      simp [validateRedemption, h]
    simp only [recordRewardRedemption, hv]
    rfl
  · intro h1 h2
    have hv : validateRedemption st req.tenantID req.pointsToRedeem = .ok () := by
      simp [validateRedemption, not_lt.mpr h1]
    have hpts : -req.pointsToRedeem ≠ 0 := by omega
    refine ⟨{ statementEntries := st.statementEntries ++
                [{ id := st.nextID + 1, tenantID := req.tenantID,
                   statementID := none, entryType := .reward,
                   amount := req.creditAmount, status := .pending,
                   metadataPointsEntryID := some st.nextID }],
              pointsEntries := st.pointsEntries ++
                [{ id := st.nextID, tenantID := req.tenantID,
                   statementEntryID := none, entryType := .redeemedSpent,
                   points := -req.pointsToRedeem }],
              nextID := st.nextID + 2 },
            { id := st.nextID + 1, tenantID := req.tenantID,
              statementID := none, entryType := .reward,
              amount := req.creditAmount, status := .pending,
              metadataPointsEntryID := some st.nextID },
            { id := st.nextID, tenantID := req.tenantID,
              statementEntryID := some (st.nextID + 1),
              entryType := .redeemedSpent, points := -req.pointsToRedeem },
            ?_, rfl,
            ⟨{ id := st.nextID, tenantID := req.tenantID,
               statementEntryID := none, entryType := .redeemedSpent,
               points := -req.pointsToRedeem }, rfl, rfl, rfl, rfl⟩,
            rfl, rfl, rfl, rfl, rfl, rfl, rfl⟩
    simp only [recordRewardRedemption, hv]
    simp [createPointsEntry, createStatementEntry, pointsEntryOK,
      statementEntryOK, PointsEntryType.isEarnedType,
      PointsEntryType.isRedeemedType, StatementEntryType.isFeeType, hpts]
    rfl

/-- An earned-points entry giving tenant 1 a balance of 100 points. -/
def earnedEntryW : PointsLedgerEntry :=
  { id := 2, tenantID := 1, statementEntryID := none,
    entryType := .earnedTransaction, points := 100 }

/-- A ledger state in which tenant 1 has 100 points available. -/
def stPointsW : LedgerState :=
  { statementEntries := [], pointsEntries := [earnedEntryW], nextID := 7 }

/-- A redemption request for more points than tenant 1 holds. -/
def reqOverW : RewardRedemptionRequest :=
  { tenantID := 1, pointsToRedeem := 500, creditAmount := 5 }

/-- A redemption request within tenant 1's balance. -/
def reqOkW : RewardRedemptionRequest :=
  { tenantID := 1, pointsToRedeem := 50, creditAmount := 1/2 }

/-- Witness for C6: redeeming 500 of 100 available points is rejected with
the insufficient-points error; redeeming 50 of them succeeds. -/
theorem C6_redemption_witness :
    recordRewardRedemption stPointsW reqOverW = .error .insufficientPoints ∧
    ∃ st' se pe, recordRewardRedemption stPointsW reqOkW = .ok (st', se, pe) := by
  constructor
  · exact (C6_redemption stPointsW reqOverW).1 (by decide)
  · obtain ⟨st', se, pe, hrun, -⟩ :=
      (C6_redemption stPointsW reqOkW).2 (by decide) (by decide)
    exact ⟨st', se, pe, hrun⟩

/-! ## C8 — append-time validation -/

/-- A `fee_late` entry with a zero amount. -/
def feeZeroEntry : StatementLedgerEntry :=
  { id := 0, tenantID := 1, statementID := none, entryType := .feeLate,
    amount := 0, status := .pending, metadataPointsEntryID := none }

/-- A `redeemed_spent` points entry with positive (non-negative) points. -/
def redeemedPositiveEntry : PointsLedgerEntry :=
  { id := 0, tenantID := 1, statementEntryID := none,
    entryType := .redeemedSpent, points := 100 }

/-- An empty ledger. -/
def emptyLedger : LedgerState :=
  { statementEntries := [], pointsEntries := [], nextID := 1 }

/-- Counterexample for C8: a zero-amount fee entry and a redeemed points
entry with positive points are both appended without any error — the claimed
validation rejection does not happen, and the rows are written. -/
theorem C8_counterexample :
    createStatementEntry emptyLedger feeZeroEntry =
      .ok ({ statementEntries := [{ feeZeroEntry with id := 1 }],
             pointsEntries := [], nextID := 2 },
           { feeZeroEntry with id := 1 }) ∧
    createPointsEntry emptyLedger redeemedPositiveEntry =
      .ok ({ statementEntries := [], nextID := 2,
             pointsEntries := [{ redeemedPositiveEntry with id := 1 }] },
           { redeemedPositiveEntry with id := 1 }) := by
  constructor <;> rfl

/-- C8 as amended: the append operations perform no service-level
validation; an append is refused (by the CHECK constraints of the schema)
exactly when a fee-type statement entry carries a strictly negative amount,
an earned points entry carries non-positive points, or a redeemed points
entry carries zero points. -/
theorem C8_amended_append_checks :
    (∀ (st : LedgerState) (e : StatementLedgerEntry),
       (∃ r, createStatementEntry st e = .ok r) ↔
         (e.entryType.isFeeType = true → 0 ≤ e.amount)) ∧
    (∀ (st : LedgerState) (e : PointsLedgerEntry),
       (∃ r, createPointsEntry st e = .ok r) ↔
         ((e.entryType.isEarnedType = true → 0 < e.points) ∧
          (e.entryType.isRedeemedType = true → e.points ≠ 0))) := by
  constructor
  · intro st e
    have hsame : statementEntryOK (if e.id = 0 then { e with id := st.nextID } else e)
        = statementEntryOK e := by
      by_cases hid : e.id = 0 <;> simp [hid, statementEntryOK]
    have key : (∃ r, createStatementEntry st e = .ok r) ↔
        statementEntryOK e = true := by
      constructor
      · rintro ⟨r, hr⟩
        by_cases hok : statementEntryOK e = true
        · exact hok
        · have hf : statementEntryOK e = false := by
            revert hok; cases statementEntryOK e <;> simp
          simp [createStatementEntry, hsame, hf] at hr
      · intro hok
        simp [createStatementEntry, hsame, hok]
    rw [key]
    cases hfee : e.entryType.isFeeType <;> simp [statementEntryOK, hfee]
  · intro st e
    have hsame : pointsEntryOK (if e.id = 0 then { e with id := st.nextID } else e)
        = pointsEntryOK e := by
      by_cases hid : e.id = 0 <;> simp [hid, pointsEntryOK]
    have key : (∃ r, createPointsEntry st e = .ok r) ↔
        pointsEntryOK e = true := by
      constructor
      · rintro ⟨r, hr⟩
        by_cases hok : pointsEntryOK e = true
        · exact hok
        · have hf : pointsEntryOK e = false := by
            revert hok; cases pointsEntryOK e <;> simp
          simp [createPointsEntry, hsame, hf] at hr
      · intro hok
        simp [createPointsEntry, hsame, hok]
    rw [key]
    cases hearn : e.entryType.isEarnedType <;>
      cases hred : e.entryType.isRedeemedType <;>
        simp [pointsEntryOK, hearn, hred]

/-! ## C9 — rounding of intermediate values -/

/-- Modelled from the spec sentence for comparison with the source: round to
2 decimal places at the final step only, never rounding intermediate
products — exact mean of the daily balances, exact product with the daily
rate and cycle length, one rounding at the end. -/
def specInterestFinalRoundingOnly (records : List DailyBalanceRecord)
    (dpr : Dec) (daysInCycle : ℤ) : Dec :=
  decRound 2 ((records.map (fun r => r.balance)).sum / records.length
    * dpr * (daysInCycle : ℚ))

/-- Three days of balances 0, 0 and 1: their mean 1/3 is not representable
at 2 decimals. -/
def recsC9 : List DailyBalanceRecord :=
  [{ date := 0, balance := 0 }, { date := 1, balance := 0 },
   { date := 2, balance := 1 }]

/-- Counterexample for C9: on `recsC9` at the DPR of an 18.25% APR over 30
days, the source pipeline (ADB rounded when computed, then the per-method
amount rounded) yields $0.00, while rounding only at the final step yields
$0.01 — so intermediate products are rounded, contrary to the claim. -/
theorem C9_counterexample :
    calculateADBInterest (calculateAverageDailyBalance recsC9)
        (cardW.getDailyPeriodicRate (73/4)) 30 = 0 ∧
    specInterestFinalRoundingOnly recsC9 (cardW.getDailyPeriodicRate (73/4)) 30
        = 1/100 ∧
    calculateADBInterest (calculateAverageDailyBalance recsC9)
        (cardW.getDailyPeriodicRate (73/4)) 30 ≠
      specInterestFinalRoundingOnly recsC9 (cardW.getDailyPeriodicRate (73/4)) 30 := by
  have hdpr : cardW.getDailyPeriodicRate (73/4) = 1/2000 := by
    norm_num [CreditCard.getDailyPeriodicRate]
  have hadb : calculateAverageDailyBalance recsC9 = 33/100 := by
    norm_num [calculateAverageDailyBalance, recsC9, decRound, roundHalfAway,
      Int.floor_eq_iff]
  have h1 : calculateADBInterest (calculateAverageDailyBalance recsC9)
      (cardW.getDailyPeriodicRate (73/4)) 30 = 0 := by
    rw [hadb, hdpr]
    norm_num [calculateADBInterest, decRound, roundHalfAway]
  have h2 : specInterestFinalRoundingOnly recsC9
      (cardW.getDailyPeriodicRate (73/4)) 30 = 1/100 := by
    rw [hdpr]
    norm_num [specInterestFinalRoundingOnly, recsC9, decRound, roundHalfAway]
  exact ⟨h1, h2, by rw [h1, h2]; norm_num⟩

theorem foldl_add_balances (l : List DailyBalanceRecord) (a : ℚ) :
    l.foldl (fun acc r => acc + r.balance) a = a + (l.map (fun r => r.balance)).sum := by
  induction l generalizing a with
  | nil => simp
  | cons x xs ih => simp [ih, add_assoc]

/-- C9 as amended: rounding is not confined to the final step — the average
daily balance is itself rounded to 2 decimal places when computed, and the
ADB-method interest amount is rounded to 2 decimal places, before the final
rounding at the configured precision. -/
theorem C9_amended_intermediate_rounding :
    (∀ records : List DailyBalanceRecord, records ≠ [] →
       calculateAverageDailyBalance records =
         decRound 2 ((records.map (fun r => r.balance)).sum / records.length)) ∧
    (∀ (adb dpr : Dec) (days : ℤ), 0 < adb →
       calculateADBInterest adb dpr days =
         decRound 2 (adb * dpr * (days : ℚ))) := by
  constructor
  · intro records hne
    match records with
    | [] => exact absurd rfl hne
    | r :: rs =>
      show decRound 2 ((r :: rs).foldl (fun acc x => acc + x.balance) 0 / _) = _
      rw [foldl_add_balances, zero_add]
  · intro adb dpr days h
    simp [calculateADBInterest, not_le.mpr h]

/-- Witness for C9's amended statement: on `recsC9` the computed ADB is the
already-rounded $0.33, and the ADB-method amount at that input is the rounded
$0.00. -/
theorem C9_amended_intermediate_rounding_witness :
    calculateAverageDailyBalance recsC9 = 33/100 ∧
    calculateADBInterest (33/100) (1/2000) 30 = 0 := by
  constructor
  · rw [C9_amended_intermediate_rounding.1 recsC9 (by simp [recsC9])]
    norm_num [recsC9, decRound, roundHalfAway]
  · rw [C9_amended_intermediate_rounding.2 (33/100) (1/2000) 30 (by norm_num)]
    norm_num [decRound, roundHalfAway]

end EzLedger
